import Mathlib

/-!
Shallow embedding of `src/hooks/useV3Trade.ts` from gulabs/guswap-interface.

The module is a pure fallback-routing decision procedure. Its three
collaborators (`useDebounce`, `useRouterTradeExactIn/Out`,
`useLocalV3TradeExactIn/Out`) live outside the module and are consumed as
black boxes returning snapshot readings, so they are embedded as an
environment of oracle functions (`HooksEnv`); the two public hooks are then
pure functions of the environment and their two optional arguments, mirroring
the TypeScript line by line.
-/

/-- Embeds `enum V3TradeState` (useV3Trade.ts lines 7-13). -/
inductive V3TradeState where
  | LOADING
  | INVALID
  | NO_ROUTE_FOUND
  | VALID
  | SYNCING
  deriving DecidableEq

/-- Embeds `enum RouterVersion` (useV3Trade.ts lines 15-18). -/
inductive RouterVersion where
  | LEGACY
  | UNISWAP_API
  deriving DecidableEq

/-- The `{state, trade}` pair returned by either quote source.
`Trade` objects are opaque to the module, so the trade type is a parameter;
`Option` embeds `Trade | null` / possibly-undefined values. -/
structure QuoteResult (Trade : Type) where
  state : V3TradeState
  trade : Option Trade
  deriving DecidableEq

/-- The `{state, trade, router}` record returned by the two hooks. -/
structure TradeResult (Trade : Type) where
  state : V3TradeState
  trade : Option Trade
  router : RouterVersion
  deriving DecidableEq

/-- The collaborator hooks imported by useV3Trade.ts (lines 3-5). Each is an
arbitrary snapshot oracle: the debouncer maps a raw value and a window to a
`[debouncedValue, debouncing]` pair; each quote source maps its two
(possibly undefined) arguments to a `{state, trade}` reading. -/
structure HooksEnv (Amount Currency Trade : Type) where
  useDebounce : Option Amount → Nat → Option Amount × Bool
  useRouterTradeExactIn : Option Amount → Option Currency → QuoteResult Trade
  useRouterTradeExactOut : Option Currency → Option Amount → QuoteResult Trade
  useLocalV3TradeExactIn : Option Amount → Option Currency → QuoteResult Trade
  useLocalV3TradeExactOut : Option Currency → Option Amount → QuoteResult Trade

variable {A C T : Type}

/-- Embeds `shouldUseFallback` (useV3Trade.ts line 20):
`[V3TradeState.NO_ROUTE_FOUND].includes(state)`. -/
def shouldUseFallback (state : V3TradeState) : Bool :=
  [V3TradeState.NO_ROUTE_FOUND].contains state

/-- Line 32: `const [debouncedAmountIn, debouncing] = useDebounce(amountIn, 250)`. -/
def debouncedExactIn (env : HooksEnv A C T) (amountIn : Option A) : Option A × Bool :=
  env.useDebounce amountIn 250

/-- Line 35: `const multiRouteTradeExactIn = useRouterTradeExactIn(debouncedAmountIn, currencyOut)`. -/
def multiRouteTradeExactIn (env : HooksEnv A C T) (amountIn : Option A)
    (currencyOut : Option C) : QuoteResult T :=
  env.useRouterTradeExactIn (debouncedExactIn env amountIn).1 currencyOut

/-- Line 37: `const useFallback = !debouncing && shouldUseFallback(multiRouteTradeExactIn.state)`. -/
def useFallbackExactIn (env : HooksEnv A C T) (amountIn : Option A)
    (currencyOut : Option C) : Bool :=
  !(debouncedExactIn env amountIn).2 &&
    shouldUseFallback (multiRouteTradeExactIn env amountIn currencyOut).state

/-- Lines 41-42: the argument pair handed to the local source,
`(useFallback ? debouncedAmountIn : undefined, useFallback ? currencyOut : undefined)`. -/
def localArgsExactIn (env : HooksEnv A C T) (amountIn : Option A)
    (currencyOut : Option C) : Option A × Option C :=
  (if useFallbackExactIn env amountIn currencyOut then (debouncedExactIn env amountIn).1 else none,
   if useFallbackExactIn env amountIn currencyOut then currencyOut else none)

/-- Lines 40-43: `const bestV3TradeExactIn = useLocalV3TradeExactIn(...)`. -/
def bestV3TradeExactIn (env : HooksEnv A C T) (amountIn : Option A)
    (currencyOut : Option C) : QuoteResult T :=
  env.useLocalV3TradeExactIn (localArgsExactIn env amountIn currencyOut).1
    (localArgsExactIn env amountIn currencyOut).2

/-- Embeds `useV3TradeExactIn` (useV3Trade.ts lines 28-52). -/
def useV3TradeExactIn (env : HooksEnv A C T) (amountIn : Option A)
    (currencyOut : Option C) : TradeResult T :=
  if (debouncedExactIn env amountIn).2 then
    { state := V3TradeState.LOADING, trade := none, router := RouterVersion.UNISWAP_API }
  else if useFallbackExactIn env amountIn currencyOut then
    { state := (bestV3TradeExactIn env amountIn currencyOut).state,
      trade := (bestV3TradeExactIn env amountIn currencyOut).trade,
      router := RouterVersion.LEGACY }
  else
    { state := (multiRouteTradeExactIn env amountIn currencyOut).state,
      trade := (multiRouteTradeExactIn env amountIn currencyOut).trade,
      router := RouterVersion.UNISWAP_API }

/-- Line 64: `const [debouncedAmountOut, debouncing] = useDebounce(amountOut, 250)`. -/
def debouncedExactOut (env : HooksEnv A C T) (amountOut : Option A) : Option A × Bool :=
  env.useDebounce amountOut 250

/-- Line 67: `const multiRouteTradeExactOut = useRouterTradeExactOut(currencyIn, debouncedAmountOut)`. -/
def multiRouteTradeExactOut (env : HooksEnv A C T) (currencyIn : Option C)
    (amountOut : Option A) : QuoteResult T :=
  env.useRouterTradeExactOut currencyIn (debouncedExactOut env amountOut).1

/-- Line 69: `const useFallback = !debouncing && shouldUseFallback(multiRouteTradeExactOut.state)`. -/
def useFallbackExactOut (env : HooksEnv A C T) (currencyIn : Option C)
    (amountOut : Option A) : Bool :=
  !(debouncedExactOut env amountOut).2 &&
    shouldUseFallback (multiRouteTradeExactOut env currencyIn amountOut).state

/-- Lines 73-74: the argument pair handed to the local source,
`(useFallback ? currencyIn : undefined, useFallback ? debouncedAmountOut : undefined)`. -/
def localArgsExactOut (env : HooksEnv A C T) (currencyIn : Option C)
    (amountOut : Option A) : Option C × Option A :=
  (if useFallbackExactOut env currencyIn amountOut then currencyIn else none,
   if useFallbackExactOut env currencyIn amountOut then (debouncedExactOut env amountOut).1 else none)

/-- Lines 72-75: `const bestV3TradeExactOut = useLocalV3TradeExactOut(...)`. -/
def bestV3TradeExactOut (env : HooksEnv A C T) (currencyIn : Option C)
    (amountOut : Option A) : QuoteResult T :=
  env.useLocalV3TradeExactOut (localArgsExactOut env currencyIn amountOut).1
    (localArgsExactOut env currencyIn amountOut).2

/-- Embeds `useV3TradeExactOut` (useV3Trade.ts lines 60-84). -/
def useV3TradeExactOut (env : HooksEnv A C T) (currencyIn : Option C)
    (amountOut : Option A) : TradeResult T :=
  if (debouncedExactOut env amountOut).2 then
    { state := V3TradeState.LOADING, trade := none, router := RouterVersion.UNISWAP_API }
  else if useFallbackExactOut env currencyIn amountOut then
    { state := (bestV3TradeExactOut env currencyIn amountOut).state,
      trade := (bestV3TradeExactOut env currencyIn amountOut).trade,
      router := RouterVersion.LEGACY }
  else
    { state := (multiRouteTradeExactOut env currencyIn amountOut).state,
      trade := (multiRouteTradeExactOut env currencyIn amountOut).trade,
      router := RouterVersion.UNISWAP_API }

/-- Builds an exact-out collaborator set from an exact-in one by swapping the
two arguments of each quote source, keeping the debouncer: the wiring the spec
describes as "identically, with arguments swapped". -/
def swapEnv (env : HooksEnv A C T) : HooksEnv A C T :=
  { env with
    useRouterTradeExactOut := fun c a => env.useRouterTradeExactIn a c,
    useLocalV3TradeExactOut := fun c a => env.useLocalV3TradeExactIn a c }

/-- A concrete environment in which a debounce is in flight while the remote
source momentarily holds a `VALID` result with a trade. -/
def debouncingEnv : HooksEnv Nat Nat Nat :=
  { useDebounce := fun v _ => (v, true),
    useRouterTradeExactIn := fun _ _ => { state := V3TradeState.VALID, trade := some 7 },
    useRouterTradeExactOut := fun _ _ => { state := V3TradeState.VALID, trade := some 7 },
    useLocalV3TradeExactIn := fun _ _ => { state := V3TradeState.VALID, trade := some 7 },
    useLocalV3TradeExactOut := fun _ _ => { state := V3TradeState.VALID, trade := some 7 } }

/-- A concrete settled environment whose sources all report `INVALID` with no
trade. -/
def inertEnv : HooksEnv Nat Nat Nat :=
  { useDebounce := fun v _ => (v, false),
    useRouterTradeExactIn := fun _ _ => { state := V3TradeState.INVALID, trade := none },
    useRouterTradeExactOut := fun _ _ => { state := V3TradeState.INVALID, trade := none },
    useLocalV3TradeExactIn := fun _ _ => { state := V3TradeState.INVALID, trade := none },
    useLocalV3TradeExactOut := fun _ _ => { state := V3TradeState.INVALID, trade := none } }

/-- A concrete settled environment whose remote source violates the
trade/state coupling: it reports `LOADING` while carrying a trade. -/
def mixedStateEnv : HooksEnv Nat Nat Nat :=
  { useDebounce := fun v _ => (v, false),
    useRouterTradeExactIn := fun _ _ => { state := V3TradeState.LOADING, trade := some 7 },
    useRouterTradeExactOut := fun _ _ => { state := V3TradeState.LOADING, trade := some 7 },
    useLocalV3TradeExactIn := fun _ _ => { state := V3TradeState.LOADING, trade := none },
    useLocalV3TradeExactOut := fun _ _ => { state := V3TradeState.LOADING, trade := none } }

/-- A concrete settled environment realizing spec Scenario C: the remote
source reports `NO_ROUTE_FOUND` and the local source finds a valid trade. -/
def fallbackEnv : HooksEnv Nat Nat Nat :=
  { useDebounce := fun v _ => (v, false),
    useRouterTradeExactIn := fun _ _ => { state := V3TradeState.NO_ROUTE_FOUND, trade := none },
    useRouterTradeExactOut := fun _ _ => { state := V3TradeState.NO_ROUTE_FOUND, trade := none },
    useLocalV3TradeExactIn := fun _ _ => { state := V3TradeState.VALID, trade := some 9 },
    useLocalV3TradeExactOut := fun _ _ => { state := V3TradeState.VALID, trade := some 9 } }

/-- `shouldUseFallback` holds exactly on `NO_ROUTE_FOUND`. -/
theorem shouldUseFallback_iff (s : V3TradeState) :
    shouldUseFallback s = true ↔ s = V3TradeState.NO_ROUTE_FOUND := by
  cases s <;> decide

/-- `shouldUseFallback` is false exactly off `NO_ROUTE_FOUND`. -/
theorem shouldUseFallback_eq_false_iff (s : V3TradeState) :
    shouldUseFallback s = false ↔ s ≠ V3TradeState.NO_ROUTE_FOUND := by
  cases s <;> decide

/-- While debouncing, `useV3TradeExactIn` short-circuits (lines 45-47). -/
theorem useV3TradeExactIn_debouncing (env : HooksEnv A C T) (amountIn : Option A)
    (currencyOut : Option C) (h : (debouncedExactIn env amountIn).2 = true) :
    useV3TradeExactIn env amountIn currencyOut =
      { state := V3TradeState.LOADING, trade := none, router := RouterVersion.UNISWAP_API } := by
  simp [useV3TradeExactIn, h]

/-- While debouncing, `useV3TradeExactOut` short-circuits (lines 77-79). -/
theorem useV3TradeExactOut_debouncing (env : HooksEnv A C T) (currencyIn : Option C)
    (amountOut : Option A) (h : (debouncedExactOut env amountOut).2 = true) :
    useV3TradeExactOut env currencyIn amountOut =
      { state := V3TradeState.LOADING, trade := none, router := RouterVersion.UNISWAP_API } := by
  simp [useV3TradeExactOut, h]

/-- Once settled, `useV3TradeExactIn` forwards the local reading (taken at the
real debounced arguments) tagged LEGACY when the remote state is
`NO_ROUTE_FOUND`, else the remote reading tagged UNISWAP_API (lines 49-51). -/
theorem useV3TradeExactIn_settled (env : HooksEnv A C T) (amountIn : Option A)
    (currencyOut : Option C) (h : (debouncedExactIn env amountIn).2 = false) :
    useV3TradeExactIn env amountIn currencyOut =
      if (multiRouteTradeExactIn env amountIn currencyOut).state = V3TradeState.NO_ROUTE_FOUND then
        { state := (env.useLocalV3TradeExactIn (debouncedExactIn env amountIn).1 currencyOut).state,
          trade := (env.useLocalV3TradeExactIn (debouncedExactIn env amountIn).1 currencyOut).trade,
          router := RouterVersion.LEGACY }
      else
        { state := (multiRouteTradeExactIn env amountIn currencyOut).state,
          trade := (multiRouteTradeExactIn env amountIn currencyOut).trade,
          router := RouterVersion.UNISWAP_API } := by
  by_cases hs : (multiRouteTradeExactIn env amountIn currencyOut).state = V3TradeState.NO_ROUTE_FOUND
  · have hfb : useFallbackExactIn env amountIn currencyOut = true := by
      simp [useFallbackExactIn, h, (shouldUseFallback_iff _).mpr hs]
    simp [useV3TradeExactIn, h, hfb, hs, bestV3TradeExactIn, localArgsExactIn]
  · have hfb : useFallbackExactIn env amountIn currencyOut = false := by
      simp [useFallbackExactIn, h, (shouldUseFallback_eq_false_iff _).mpr hs]
    simp [useV3TradeExactIn, h, hfb, hs]

/-- Once settled, `useV3TradeExactOut` forwards the local reading (taken at the
real debounced arguments) tagged LEGACY when the remote state is
`NO_ROUTE_FOUND`, else the remote reading tagged UNISWAP_API (lines 81-83). -/
theorem useV3TradeExactOut_settled (env : HooksEnv A C T) (currencyIn : Option C)
    (amountOut : Option A) (h : (debouncedExactOut env amountOut).2 = false) :
    useV3TradeExactOut env currencyIn amountOut =
      if (multiRouteTradeExactOut env currencyIn amountOut).state = V3TradeState.NO_ROUTE_FOUND then
        { state := (env.useLocalV3TradeExactOut currencyIn (debouncedExactOut env amountOut).1).state,
          trade := (env.useLocalV3TradeExactOut currencyIn (debouncedExactOut env amountOut).1).trade,
          router := RouterVersion.LEGACY }
      else
        { state := (multiRouteTradeExactOut env currencyIn amountOut).state,
          trade := (multiRouteTradeExactOut env currencyIn amountOut).trade,
          router := RouterVersion.UNISWAP_API } := by
  by_cases hs : (multiRouteTradeExactOut env currencyIn amountOut).state = V3TradeState.NO_ROUTE_FOUND
  · have hfb : useFallbackExactOut env currencyIn amountOut = true := by
      simp [useFallbackExactOut, h, (shouldUseFallback_iff _).mpr hs]
    simp [useV3TradeExactOut, h, hfb, hs, bestV3TradeExactOut, localArgsExactOut]
  · have hfb : useFallbackExactOut env currencyIn amountOut = false := by
      simp [useFallbackExactOut, h, (shouldUseFallback_eq_false_iff _).mpr hs]
    simp [useV3TradeExactOut, h, hfb, hs]

/-- The exact-in result depends on the environment only through the debouncer
reading at `(amountIn, 250)`, the remote reading at the debounced arguments,
and the local reading at the arguments actually passed. -/
theorem useV3TradeExactIn_congr (env env' : HooksEnv A C T) (amountIn : Option A)
    (currencyOut : Option C)
    (hd : env.useDebounce amountIn 250 = env'.useDebounce amountIn 250)
    (hr : env.useRouterTradeExactIn (debouncedExactIn env amountIn).1 currencyOut =
      env'.useRouterTradeExactIn (debouncedExactIn env amountIn).1 currencyOut)
    (hl : env.useLocalV3TradeExactIn (localArgsExactIn env amountIn currencyOut).1
        (localArgsExactIn env amountIn currencyOut).2 =
      env'.useLocalV3TradeExactIn (localArgsExactIn env amountIn currencyOut).1
        (localArgsExactIn env amountIn currencyOut).2) :
    useV3TradeExactIn env amountIn currencyOut = useV3TradeExactIn env' amountIn currencyOut := by
  have h1 : debouncedExactIn env amountIn = debouncedExactIn env' amountIn := hd
  have h2 : multiRouteTradeExactIn env amountIn currencyOut =
      multiRouteTradeExactIn env' amountIn currencyOut := by
    unfold multiRouteTradeExactIn
    rw [← h1]; exact hr
  have h3 : useFallbackExactIn env amountIn currencyOut =
      useFallbackExactIn env' amountIn currencyOut := by
    unfold useFallbackExactIn
    rw [h1, h2]
  have h4 : localArgsExactIn env amountIn currencyOut =
      localArgsExactIn env' amountIn currencyOut := by
    unfold localArgsExactIn
    rw [h1, h3]
  have h5 : bestV3TradeExactIn env amountIn currencyOut =
      bestV3TradeExactIn env' amountIn currencyOut := by
    unfold bestV3TradeExactIn
    rw [← h4]; exact hl
  unfold useV3TradeExactIn
  rw [h1, h2, h3, h5]

/-- The exact-out result depends on the environment only through the debouncer
reading at `(amountOut, 250)`, the remote reading at the debounced arguments,
and the local reading at the arguments actually passed. -/
theorem useV3TradeExactOut_congr (env env' : HooksEnv A C T) (currencyIn : Option C)
    (amountOut : Option A)
    (hd : env.useDebounce amountOut 250 = env'.useDebounce amountOut 250)
    (hr : env.useRouterTradeExactOut currencyIn (debouncedExactOut env amountOut).1 =
      env'.useRouterTradeExactOut currencyIn (debouncedExactOut env amountOut).1)
    (hl : env.useLocalV3TradeExactOut (localArgsExactOut env currencyIn amountOut).1
        (localArgsExactOut env currencyIn amountOut).2 =
      env'.useLocalV3TradeExactOut (localArgsExactOut env currencyIn amountOut).1
        (localArgsExactOut env currencyIn amountOut).2) :
    useV3TradeExactOut env currencyIn amountOut = useV3TradeExactOut env' currencyIn amountOut := by
  have h1 : debouncedExactOut env amountOut = debouncedExactOut env' amountOut := hd
  have h2 : multiRouteTradeExactOut env currencyIn amountOut =
      multiRouteTradeExactOut env' currencyIn amountOut := by
    unfold multiRouteTradeExactOut
    rw [← h1]; exact hr
  have h3 : useFallbackExactOut env currencyIn amountOut =
      useFallbackExactOut env' currencyIn amountOut := by
    unfold useFallbackExactOut
    rw [h1, h2]
  have h4 : localArgsExactOut env currencyIn amountOut =
      localArgsExactOut env' currencyIn amountOut := by
    unfold localArgsExactOut
    rw [h1, h3]
  have h5 : bestV3TradeExactOut env currencyIn amountOut =
      bestV3TradeExactOut env' currencyIn amountOut := by
    unfold bestV3TradeExactOut
    rw [← h4]; exact hl
  unfold useV3TradeExactOut
  rw [h1, h2, h3, h5]

/-- C1: for every input and every combination of remote and local source
outputs, if the debouncer reports debouncing = true, then both
`useV3TradeExactIn` and `useV3TradeExactOut` return exactly
`{state: LOADING, trade: null, router: UNISWAP_API}`, regardless of what the
remote or local source currently holds. -/
theorem claim_C1_debounce_dominance (env : HooksEnv A C T) (amountIn : Option A)
    (currencyOut : Option C) (currencyIn : Option C) (amountOut : Option A) :
    ((env.useDebounce amountIn 250).2 = true →
      useV3TradeExactIn env amountIn currencyOut =
        { state := V3TradeState.LOADING, trade := none, router := RouterVersion.UNISWAP_API }) ∧
    ((env.useDebounce amountOut 250).2 = true →
      useV3TradeExactOut env currencyIn amountOut =
        { state := V3TradeState.LOADING, trade := none, router := RouterVersion.UNISWAP_API }) :=
  ⟨fun h => useV3TradeExactIn_debouncing env amountIn currencyOut h,
   fun h => useV3TradeExactOut_debouncing env currencyIn amountOut h⟩

/-- Witness for C1: in `debouncingEnv` the debouncer is in flight and the
remote source holds a VALID trade, yet both hooks report the inert LOADING
result. -/
theorem claim_C1_debounce_dominance_witness :
    (debouncingEnv.useDebounce (some 1) 250).2 = true ∧
    useV3TradeExactIn debouncingEnv (some 1) (some 2) =
      { state := V3TradeState.LOADING, trade := none, router := RouterVersion.UNISWAP_API } ∧
    useV3TradeExactOut debouncingEnv (some 2) (some 1) =
      { state := V3TradeState.LOADING, trade := none, router := RouterVersion.UNISWAP_API } :=
  ⟨rfl,
   (claim_C1_debounce_dominance debouncingEnv (some 1) (some 2) (some 2) (some 1)).1 rfl,
   (claim_C1_debounce_dominance debouncingEnv (some 1) (some 2) (some 2) (some 1)).2 rfl⟩

/-- C2: the returned router equals LEGACY if and only if debouncing is false
and the remote source's state equals NO_ROUTE_FOUND; it is never LEGACY for
INVALID, LOADING, SYNCING or VALID remote states, or while debouncing. -/
theorem claim_C2_fallback_trigger_exactness (env : HooksEnv A C T)
    (amountIn : Option A) (currencyOut : Option C) (currencyIn : Option C)
    (amountOut : Option A) :
    ((useV3TradeExactIn env amountIn currencyOut).router = RouterVersion.LEGACY ↔
      (debouncedExactIn env amountIn).2 = false ∧
        (multiRouteTradeExactIn env amountIn currencyOut).state = V3TradeState.NO_ROUTE_FOUND) ∧
    ((useV3TradeExactOut env currencyIn amountOut).router = RouterVersion.LEGACY ↔
      (debouncedExactOut env amountOut).2 = false ∧
        (multiRouteTradeExactOut env currencyIn amountOut).state = V3TradeState.NO_ROUTE_FOUND) := by
  constructor
  · cases hb : (debouncedExactIn env amountIn).2
    · rw [useV3TradeExactIn_settled env amountIn currencyOut hb]
      by_cases hs : (multiRouteTradeExactIn env amountIn currencyOut).state =
          V3TradeState.NO_ROUTE_FOUND
      · simp [hs]
      · simp [hs]
    · rw [useV3TradeExactIn_debouncing env amountIn currencyOut hb]
      simp
  · cases hb : (debouncedExactOut env amountOut).2
    · rw [useV3TradeExactOut_settled env currencyIn amountOut hb]
      by_cases hs : (multiRouteTradeExactOut env currencyIn amountOut).state =
          V3TradeState.NO_ROUTE_FOUND
      · simp [hs]
      · simp [hs]
    · rw [useV3TradeExactOut_debouncing env currencyIn amountOut hb]
      simp

/-- C4: the local source is invoked with both arguments undefined whenever the
fallback is not active (debouncing, or remote state differs from
NO_ROUTE_FOUND); it receives the real debounced amount and currency exactly
when the fallback is active. -/
theorem claim_C4_local_suppression (env : HooksEnv A C T) (amountIn : Option A)
    (currencyOut : Option C) (currencyIn : Option C) (amountOut : Option A) :
    (localArgsExactIn env amountIn currencyOut =
      if (debouncedExactIn env amountIn).2 = true ∨
          (multiRouteTradeExactIn env amountIn currencyOut).state ≠ V3TradeState.NO_ROUTE_FOUND
      then (none, none)
      else ((debouncedExactIn env amountIn).1, currencyOut)) ∧
    (localArgsExactOut env currencyIn amountOut =
      if (debouncedExactOut env amountOut).2 = true ∨
          (multiRouteTradeExactOut env currencyIn amountOut).state ≠ V3TradeState.NO_ROUTE_FOUND
      then (none, none)
      else (currencyIn, (debouncedExactOut env amountOut).1)) := by
  constructor
  · by_cases hc : (debouncedExactIn env amountIn).2 = true ∨
        (multiRouteTradeExactIn env amountIn currencyOut).state ≠ V3TradeState.NO_ROUTE_FOUND
    · rw [if_pos hc]
      have hfb : useFallbackExactIn env amountIn currencyOut = false := by
        rcases hc with h | h
        · simp [useFallbackExactIn, h]
        · simp [useFallbackExactIn, (shouldUseFallback_eq_false_iff _).mpr h]
      simp [localArgsExactIn, hfb]
    · rw [if_neg hc]
      push_neg at hc
      obtain ⟨h1, h2⟩ := hc
      have hb : (debouncedExactIn env amountIn).2 = false := by
        simpa using h1
      have hfb : useFallbackExactIn env amountIn currencyOut = true := by
        simp [useFallbackExactIn, hb, (shouldUseFallback_iff _).mpr h2]
      simp [localArgsExactIn, hfb]
  · by_cases hc : (debouncedExactOut env amountOut).2 = true ∨
        (multiRouteTradeExactOut env currencyIn amountOut).state ≠ V3TradeState.NO_ROUTE_FOUND
    · rw [if_pos hc]
      have hfb : useFallbackExactOut env currencyIn amountOut = false := by
        rcases hc with h | h
        · simp [useFallbackExactOut, h]
        · simp [useFallbackExactOut, (shouldUseFallback_eq_false_iff _).mpr h]
      simp [localArgsExactOut, hfb]
    · rw [if_neg hc]
      push_neg at hc
      obtain ⟨h1, h2⟩ := hc
      have hb : (debouncedExactOut env amountOut).2 = false := by
        simpa using h1
      have hfb : useFallbackExactOut env currencyIn amountOut = true := by
        simp [useFallbackExactOut, hb, (shouldUseFallback_iff _).mpr h2]
      simp [localArgsExactOut, hfb]

/-- C5: with debouncing settled, the hooks return exactly the local source's
reading (taken at the real debounced arguments) tagged LEGACY when the remote
state is NO_ROUTE_FOUND, and exactly the remote source's reading tagged
UNISWAP_API otherwise. -/
theorem claim_C5_settled_forwarding (env : HooksEnv A C T) (amountIn : Option A)
    (currencyOut : Option C) (currencyIn : Option C) (amountOut : Option A) :
    ((debouncedExactIn env amountIn).2 = false →
      useV3TradeExactIn env amountIn currencyOut =
        if (multiRouteTradeExactIn env amountIn currencyOut).state = V3TradeState.NO_ROUTE_FOUND then
          { state := (env.useLocalV3TradeExactIn (debouncedExactIn env amountIn).1 currencyOut).state,
            trade := (env.useLocalV3TradeExactIn (debouncedExactIn env amountIn).1 currencyOut).trade,
            router := RouterVersion.LEGACY }
        else
          { state := (multiRouteTradeExactIn env amountIn currencyOut).state,
            trade := (multiRouteTradeExactIn env amountIn currencyOut).trade,
            router := RouterVersion.UNISWAP_API }) ∧
    ((debouncedExactOut env amountOut).2 = false →
      useV3TradeExactOut env currencyIn amountOut =
        if (multiRouteTradeExactOut env currencyIn amountOut).state = V3TradeState.NO_ROUTE_FOUND then
          { state := (env.useLocalV3TradeExactOut currencyIn (debouncedExactOut env amountOut).1).state,
            trade := (env.useLocalV3TradeExactOut currencyIn (debouncedExactOut env amountOut).1).trade,
            router := RouterVersion.LEGACY }
        else
          { state := (multiRouteTradeExactOut env currencyIn amountOut).state,
            trade := (multiRouteTradeExactOut env currencyIn amountOut).trade,
            router := RouterVersion.UNISWAP_API }) :=
  ⟨fun h => useV3TradeExactIn_settled env amountIn currencyOut h,
   fun h => useV3TradeExactOut_settled env currencyIn amountOut h⟩

/-- Witness for C5: spec Scenario C, concretely. In `fallbackEnv` the remote
source reports NO_ROUTE_FOUND and the local source finds a valid trade, so the
settled result is the local trade tagged LEGACY. -/
theorem claim_C5_settled_forwarding_witness :
    (fallbackEnv.useDebounce (some 1) 250).2 = false ∧
    useV3TradeExactIn fallbackEnv (some 1) (some 2) =
      { state := V3TradeState.VALID, trade := some 9, router := RouterVersion.LEGACY } ∧
    useV3TradeExactOut fallbackEnv (some 2) (some 1) =
      { state := V3TradeState.VALID, trade := some 9, router := RouterVersion.LEGACY } := by
  refine ⟨rfl, ?_, ?_⟩
  · have h := (claim_C5_settled_forwarding fallbackEnv (some 1) (some 2) (some 2) (some 1)).1 rfl
    rw [h]; decide
  · have h := (claim_C5_settled_forwarding fallbackEnv (some 1) (some 2) (some 2) (some 1)).2 rfl
    rw [h]; decide

/-- Counterexample for C3: quantified over arbitrary source outputs the
coupling fails. In `mixedStateEnv` the settled remote source reports LOADING
while carrying a trade; the hook forwards it unchanged, so the returned Result
has a non-null trade with state LOADING, not VALID. -/
theorem claim_C3_counterexample :
    ¬ ((useV3TradeExactIn mixedStateEnv (some 1) (some 2)).trade ≠ none ↔
      (useV3TradeExactIn mixedStateEnv (some 1) (some 2)).state = V3TradeState.VALID) := by
  decide

/-- C3 (amended): provided every remote and local source output satisfies the
trade/state coupling (trade non-null iff state VALID), every Result returned
by either hook satisfies it too; the only fabricated Result, the debouncing
LOADING one, has a null trade. -/
theorem claim_C3_trade_state_coupling (env : HooksEnv A C T) (amountIn : Option A)
    (currencyOut : Option C) (currencyIn : Option C) (amountOut : Option A)
    (hrIn : ∀ x y, (env.useRouterTradeExactIn x y).trade ≠ none ↔
      (env.useRouterTradeExactIn x y).state = V3TradeState.VALID)
    (hlIn : ∀ x y, (env.useLocalV3TradeExactIn x y).trade ≠ none ↔
      (env.useLocalV3TradeExactIn x y).state = V3TradeState.VALID)
    (hrOut : ∀ x y, (env.useRouterTradeExactOut x y).trade ≠ none ↔
      (env.useRouterTradeExactOut x y).state = V3TradeState.VALID)
    (hlOut : ∀ x y, (env.useLocalV3TradeExactOut x y).trade ≠ none ↔
      (env.useLocalV3TradeExactOut x y).state = V3TradeState.VALID) :
    ((useV3TradeExactIn env amountIn currencyOut).trade ≠ none ↔
      (useV3TradeExactIn env amountIn currencyOut).state = V3TradeState.VALID) ∧
    ((useV3TradeExactOut env currencyIn amountOut).trade ≠ none ↔
      (useV3TradeExactOut env currencyIn amountOut).state = V3TradeState.VALID) := by
  constructor
  · cases hb : (debouncedExactIn env amountIn).2
    · rw [useV3TradeExactIn_settled env amountIn currencyOut hb]
      by_cases hs : (multiRouteTradeExactIn env amountIn currencyOut).state =
          V3TradeState.NO_ROUTE_FOUND
      · simpa [hs] using hlIn (debouncedExactIn env amountIn).1 currencyOut
      · rw [if_neg hs]
        simpa using hrIn (debouncedExactIn env amountIn).1 currencyOut
    · rw [useV3TradeExactIn_debouncing env amountIn currencyOut hb]
      simp
  · cases hb : (debouncedExactOut env amountOut).2
    · rw [useV3TradeExactOut_settled env currencyIn amountOut hb]
      by_cases hs : (multiRouteTradeExactOut env currencyIn amountOut).state =
          V3TradeState.NO_ROUTE_FOUND
      · simpa [hs] using hlOut currencyIn (debouncedExactOut env amountOut).1
      · rw [if_neg hs]
        simpa using hrOut currencyIn (debouncedExactOut env amountOut).1
    · rw [useV3TradeExactOut_debouncing env currencyIn amountOut hb]
      simp

/-- Witness for the amended C3: in `inertEnv` every source output satisfies
the coupling, and the returned Results do too. -/
theorem claim_C3_trade_state_coupling_witness :
    ((useV3TradeExactIn inertEnv (some 1) (some 2)).trade ≠ none ↔
      (useV3TradeExactIn inertEnv (some 1) (some 2)).state = V3TradeState.VALID) ∧
    ((useV3TradeExactOut inertEnv (some 2) (some 1)).trade ≠ none ↔
      (useV3TradeExactOut inertEnv (some 2) (some 1)).state = V3TradeState.VALID) :=
  claim_C3_trade_state_coupling inertEnv (some 1) (some 2) (some 2) (some 1)
    (fun x y => by simp [inertEnv]) (fun x y => by simp [inertEnv])
    (fun x y => by simp [inertEnv]) (fun x y => by simp [inertEnv])

/-- C7: the exact-out hook is the exact-in hook with the debounced leg moved
from the first to the second argument of each quote-source call: against an
exact-out collaborator set obtained by swapping the arguments of the exact-in
quote sources, the two hooks agree on the whole Result for every input. -/
theorem claim_C7_exactOut_is_swapped_exactIn (env : HooksEnv A C T)
    (amount : Option A) (currency : Option C) :
    useV3TradeExactOut (swapEnv env) currency amount =
      useV3TradeExactIn env amount currency := rfl

/-- C8: each hook is a deterministic pure function of the current debouncer,
remote-source and local-source readings: two invocations whose collaborators
agree at the readings actually taken yield identical Results. -/
theorem claim_C8_purity (env env' : HooksEnv A C T) (amountIn : Option A)
    (currencyOut : Option C) (currencyIn : Option C) (amountOut : Option A)
    (hdIn : env.useDebounce amountIn 250 = env'.useDebounce amountIn 250)
    (hrIn : env.useRouterTradeExactIn (debouncedExactIn env amountIn).1 currencyOut =
      env'.useRouterTradeExactIn (debouncedExactIn env amountIn).1 currencyOut)
    (hlIn : env.useLocalV3TradeExactIn (localArgsExactIn env amountIn currencyOut).1
        (localArgsExactIn env amountIn currencyOut).2 =
      env'.useLocalV3TradeExactIn (localArgsExactIn env amountIn currencyOut).1
        (localArgsExactIn env amountIn currencyOut).2)
    (hdOut : env.useDebounce amountOut 250 = env'.useDebounce amountOut 250)
    (hrOut : env.useRouterTradeExactOut currencyIn (debouncedExactOut env amountOut).1 =
      env'.useRouterTradeExactOut currencyIn (debouncedExactOut env amountOut).1)
    (hlOut : env.useLocalV3TradeExactOut (localArgsExactOut env currencyIn amountOut).1
        (localArgsExactOut env currencyIn amountOut).2 =
      env'.useLocalV3TradeExactOut (localArgsExactOut env currencyIn amountOut).1
        (localArgsExactOut env currencyIn amountOut).2) :
    useV3TradeExactIn env amountIn currencyOut = useV3TradeExactIn env' amountIn currencyOut ∧
    useV3TradeExactOut env currencyIn amountOut = useV3TradeExactOut env' currencyIn amountOut :=
  ⟨useV3TradeExactIn_congr env env' amountIn currencyOut hdIn hrIn hlIn,
   useV3TradeExactOut_congr env env' currencyIn amountOut hdOut hrOut hlOut⟩

/-- Witness for C8: repeated invocation with the unchanged environment yields
the identical Result. -/
theorem claim_C8_purity_witness :
    useV3TradeExactIn inertEnv (some 1) (some 2) = useV3TradeExactIn inertEnv (some 1) (some 2) ∧
    useV3TradeExactOut inertEnv (some 2) (some 1) = useV3TradeExactOut inertEnv (some 2) (some 1) :=
  claim_C8_purity inertEnv inertEnv (some 1) (some 2) (some 2) (some 1)
    rfl rfl rfl rfl rfl rfl

/-- C9: both hooks consult the debouncer only at the fixed window 250 and only
on the variable leg of the swap: two environments whose debouncers agree at
`(amountIn, 250)` (respectively `(amountOut, 250)`) but may differ at every
other window or value, with equal quote sources, yield identical Results; the
currency argument is never given to the debouncer (its input type is the
amount type alone). -/
theorem claim_C9_debounce_window (env env' : HooksEnv A C T) (amountIn : Option A)
    (currencyOut : Option C) (currencyIn : Option C) (amountOut : Option A)
    (hwIn : env.useDebounce amountIn 250 = env'.useDebounce amountIn 250)
    (hwOut : env.useDebounce amountOut 250 = env'.useDebounce amountOut 250)
    (hr : env.useRouterTradeExactIn = env'.useRouterTradeExactIn)
    (hro : env.useRouterTradeExactOut = env'.useRouterTradeExactOut)
    (hl : env.useLocalV3TradeExactIn = env'.useLocalV3TradeExactIn)
    (hlo : env.useLocalV3TradeExactOut = env'.useLocalV3TradeExactOut) :
    useV3TradeExactIn env amountIn currencyOut = useV3TradeExactIn env' amountIn currencyOut ∧
    useV3TradeExactOut env currencyIn amountOut = useV3TradeExactOut env' currencyIn amountOut :=
  ⟨useV3TradeExactIn_congr env env' amountIn currencyOut hwIn (by rw [hr]) (by rw [hl]),
   useV3TradeExactOut_congr env env' currencyIn amountOut hwOut (by rw [hro]) (by rw [hlo])⟩

/-- Witness for C9 at a concrete environment. -/
theorem claim_C9_debounce_window_witness :
    useV3TradeExactIn fallbackEnv (some 1) (some 2) =
      useV3TradeExactIn fallbackEnv (some 1) (some 2) ∧
    useV3TradeExactOut fallbackEnv (some 2) (some 1) =
      useV3TradeExactOut fallbackEnv (some 2) (some 1) :=
  claim_C9_debounce_window fallbackEnv fallbackEnv (some 1) (some 2) (some 2) (some 1)
    rfl rfl rfl rfl rfl rfl

/-- C10: provenance and non-mixing. Every Result is either the fabricated
`{LOADING, null, UNISWAP_API}` produced exactly while debouncing, or —
settled — component-wise exactly the reading of the single selected source:
the remote reading tagged UNISWAP_API when the fallback is off, or the local
reading at the real debounced arguments tagged LEGACY when it is on; state and
trade are never taken from different sources and forwarded trades are never
altered. -/
theorem claim_C10_provenance (env : HooksEnv A C T) (amountIn : Option A)
    (currencyOut : Option C) (currencyIn : Option C) (amountOut : Option A) :
    (((debouncedExactIn env amountIn).2 = true ∧
        useV3TradeExactIn env amountIn currencyOut =
          { state := V3TradeState.LOADING, trade := none, router := RouterVersion.UNISWAP_API }) ∨
      ((debouncedExactIn env amountIn).2 = false ∧
        useFallbackExactIn env amountIn currencyOut = false ∧
        useV3TradeExactIn env amountIn currencyOut =
          { state := (multiRouteTradeExactIn env amountIn currencyOut).state,
            trade := (multiRouteTradeExactIn env amountIn currencyOut).trade,
            router := RouterVersion.UNISWAP_API }) ∨
      ((debouncedExactIn env amountIn).2 = false ∧
        useFallbackExactIn env amountIn currencyOut = true ∧
        useV3TradeExactIn env amountIn currencyOut =
          { state := (env.useLocalV3TradeExactIn (debouncedExactIn env amountIn).1 currencyOut).state,
            trade := (env.useLocalV3TradeExactIn (debouncedExactIn env amountIn).1 currencyOut).trade,
            router := RouterVersion.LEGACY })) ∧
    (((debouncedExactOut env amountOut).2 = true ∧
        useV3TradeExactOut env currencyIn amountOut =
          { state := V3TradeState.LOADING, trade := none, router := RouterVersion.UNISWAP_API }) ∨
      ((debouncedExactOut env amountOut).2 = false ∧
        useFallbackExactOut env currencyIn amountOut = false ∧
        useV3TradeExactOut env currencyIn amountOut =
          { state := (multiRouteTradeExactOut env currencyIn amountOut).state,
            trade := (multiRouteTradeExactOut env currencyIn amountOut).trade,
            router := RouterVersion.UNISWAP_API }) ∨
      ((debouncedExactOut env amountOut).2 = false ∧
        useFallbackExactOut env currencyIn amountOut = true ∧
        useV3TradeExactOut env currencyIn amountOut =
          { state := (env.useLocalV3TradeExactOut currencyIn (debouncedExactOut env amountOut).1).state,
            trade := (env.useLocalV3TradeExactOut currencyIn (debouncedExactOut env amountOut).1).trade,
            router := RouterVersion.LEGACY })) := by
  constructor
  · cases hb : (debouncedExactIn env amountIn).2
    · rw [useV3TradeExactIn_settled env amountIn currencyOut hb]
      by_cases hs : (multiRouteTradeExactIn env amountIn currencyOut).state =
          V3TradeState.NO_ROUTE_FOUND
      · have hfb : useFallbackExactIn env amountIn currencyOut = true := by
          simp [useFallbackExactIn, hb, (shouldUseFallback_iff _).mpr hs]
        exact Or.inr (Or.inr ⟨rfl, hfb, by rw [if_pos hs]⟩)
      · have hfb : useFallbackExactIn env amountIn currencyOut = false := by
          simp [useFallbackExactIn, hb, (shouldUseFallback_eq_false_iff _).mpr hs]
        exact Or.inr (Or.inl ⟨rfl, hfb, by rw [if_neg hs]⟩)
    · exact Or.inl ⟨rfl, useV3TradeExactIn_debouncing env amountIn currencyOut hb⟩
  · cases hb : (debouncedExactOut env amountOut).2
    · rw [useV3TradeExactOut_settled env currencyIn amountOut hb]
      by_cases hs : (multiRouteTradeExactOut env currencyIn amountOut).state =
          V3TradeState.NO_ROUTE_FOUND
      · have hfb : useFallbackExactOut env currencyIn amountOut = true := by
          simp [useFallbackExactOut, hb, (shouldUseFallback_iff _).mpr hs]
        exact Or.inr (Or.inr ⟨rfl, hfb, by rw [if_pos hs]⟩)
      · have hfb : useFallbackExactOut env currencyIn amountOut = false := by
          simp [useFallbackExactOut, hb, (shouldUseFallback_eq_false_iff _).mpr hs]
        exact Or.inr (Or.inl ⟨rfl, hfb, by rw [if_neg hs]⟩)
    · exact Or.inl ⟨rfl, useV3TradeExactOut_debouncing env currencyIn amountOut hb⟩

